import Mathlib

/-!
Verification of the PROACTIVA simulation frontend against its specification.

The definitions below are a shallow embedding of the React components under
src/proactiva-ai-simulation/frontend/src/components (AISimulation.jsx and the
NaturalLanguage components) and the presentation components MetricsDisplay and
InsightPanel, together with the documented interface in
src/docs/api/backend-api.md.  JavaScript numbers are modelled as rationals,
possibly-missing JSON fields as `Option`, and JavaScript truthiness explicitly.
-/

namespace Proactiva

/-- JavaScript `Math.round`: rounds to the nearest integer, halves toward
positive infinity, i.e. `Math.round x = ⌊x + 1/2⌋`. -/
def mathRound (q : ℚ) : ℤ := ⌊q + 1 / 2⌋

/-- A JavaScript numeric value that may be missing (`undefined` is `none`). -/
abbrev JSNum := Option ℚ

/-- JavaScript truthiness test on a possibly-missing number: `undefined` and
`0` are falsy, every other number is truthy (NaN does not arise in the model). -/
def jsFalsy (v : JSNum) : Bool :=
  match v with
  | none => true
  | some x => x == 0

/-- JavaScript `v || d` on a possibly-missing number: the default `d` when `v`
is falsy, otherwise the value itself. -/
def jsOr (v : JSNum) (d : ℚ) : ℚ :=
  match v with
  | none => d
  | some x => if x = 0 then d else x

/-- The metrics object consumed by `MetricsDisplay` (`currentState` in
AISimulation.jsx); every field may be absent. -/
structure Metrics where
  patients_waiting : JSNum := none
  average_wait_time : JSNum := none
  average_satisfaction : JSNum := none
  provider_utilization : JSNum := none
  cost_per_visit : JSNum := none
  mental_health_access : JSNum := none
deriving DecidableEq

/-- Displayed value of the Patients Waiting card: `metrics.patients_waiting || 0`. -/
def patientsWaitingValue (m : Metrics) : ℚ := jsOr m.patients_waiting 0

/-- Displayed value of the Avg Wait Time card:
`Math.round(metrics.average_wait_time || 0)` (rendered with a `min` suffix). -/
def avgWaitValue (m : Metrics) : ℤ := mathRound (jsOr m.average_wait_time 0)

/-- Displayed value of the Satisfaction card:
`Math.round(metrics.average_satisfaction || 50)` (rendered as a percentage). -/
def satisfactionValue (m : Metrics) : ℤ := mathRound (jsOr m.average_satisfaction 50)

/-- Displayed value of the Provider Utilization card:
`Math.round((metrics.provider_utilization || 0) * 100)`. -/
def utilizationValue (m : Metrics) : ℤ := mathRound (jsOr m.provider_utilization 0 * 100)

/-- Displayed value of the Cost per Visit card:
`Math.round(metrics.cost_per_visit || 150)` (rendered with a dollar sign). -/
def costPerVisitValue (m : Metrics) : ℤ := mathRound (jsOr m.cost_per_visit 150)

/-- Displayed value of the Mental Health Access card:
`Math.round(metrics.mental_health_access || 0)` (rendered as a percentage). -/
def mentalHealthValue (m : Metrics) : ℤ := mathRound (jsOr m.mental_health_access 0)

/-- The trend record produced by `getTrend` in MetricsDisplay. -/
structure Trend where
  value : ℤ
  direction : String
  positive : Bool
deriving DecidableEq

/-- MetricsDisplay's `getTrend(current, baseline)`: `null` when either argument
is falsy; otherwise the percent change from the baseline, rounded and taken in
absolute value, with direction `down` and the positive flag exactly when the
current value is below the baseline. -/
def getTrend (current baseline : JSNum) : Option Trend :=
  if jsFalsy baseline || jsFalsy current then none
  else
    let c := jsOr current 0
    let b := jsOr baseline 0
    let change := (c - b) / b * 100
    some { value := |mathRound change|
           direction := if c < b then "down" else "up"
           positive := decide (c < b) }

theorem jsOr_of_falsy (v : JSNum) (d : ℚ) (h : jsFalsy v = true) : jsOr v d = d := by
  cases v with
  | none => rfl
  | some x =>
    simp only [jsFalsy, beq_iff_eq] at h
    simp [jsOr, h]

theorem jsOr_of_truthy (v : JSNum) (d : ℚ) (h : jsFalsy v = false) :
    v = some (jsOr v d) := by
  cases v with
  | none => simp [jsFalsy] at h
  | some x =>
    simp only [jsFalsy, beq_eq_false_iff_ne, ne_eq] at h
    simp [jsOr, h]

/-- C9: `getTrend` never divides by zero: it returns `null` whenever the
baseline or the current value is absent or zero; otherwise it returns the
rounded absolute percent change `(current − baseline) / baseline × 100`, with
direction `down` and the positive flag set exactly when `current < baseline`. -/
theorem getTrend_safe_and_correct (current baseline : JSNum) :
    ((jsFalsy current = true ∨ jsFalsy baseline = true) →
      getTrend current baseline = none) ∧
    (∀ c b : ℚ, current = some c → baseline = some b → c ≠ 0 → b ≠ 0 →
      ∃ t : Trend, getTrend current baseline = some t ∧
        t.value = |mathRound ((c - b) / b * 100)| ∧
        (t.direction = "down" ↔ c < b) ∧
        (t.positive = true ↔ c < b)) := by
  constructor
  · intro h
    unfold getTrend
    rcases h with h | h <;> simp [h]
  · intro c b hc hb hc0 hb0
    subst hc; subst hb
    have hfc : jsFalsy (some c) = false := by simp [jsFalsy, hc0]
    have hfb : jsFalsy (some b) = false := by simp [jsFalsy, hb0]
    refine ⟨⟨|mathRound ((c - b) / b * 100)|,
             if c < b then "down" else "up", decide (c < b)⟩, ?_, rfl, ?_, ?_⟩
    · unfold getTrend
      simp [hfb, hfc, jsOr, hc0, hb0]
    · by_cases hlt : c < b <;> simp [hlt]
    · simp

/-- Witness for C9 at a concrete input: current wait 20 against baseline 28 is
a 29 percent improvement, reported as a positive downward trend. -/
theorem getTrend_safe_and_correct_witness :
    ∃ t : Trend, getTrend (some 20) (some 28) = some t ∧
      t.value = |mathRound ((20 - 28) / 28 * 100)| ∧
      (t.direction = "down" ↔ (20 : ℚ) < 28) ∧
      (t.positive = true ↔ (20 : ℚ) < 28) :=
  (getTrend_safe_and_correct (some 20) (some 28)).2 20 28 rfl rfl
    (by norm_num) (by norm_num)

/-- C10: when a metrics snapshot omits a field (or the field is zero or
otherwise falsy), MetricsDisplay renders that field's fixed default instead
of failing — per field: 0 patients waiting, 0 min average wait, 50 percent
satisfaction, 0 percent provider utilization, 150 dollars cost per visit,
and 0 percent mental health access. -/
theorem metricsDisplay_defaults (m : Metrics) :
    (jsFalsy m.patients_waiting = true → patientsWaitingValue m = 0) ∧
    (jsFalsy m.average_wait_time = true → avgWaitValue m = 0) ∧
    (jsFalsy m.average_satisfaction = true → satisfactionValue m = 50) ∧
    (jsFalsy m.provider_utilization = true → utilizationValue m = 0) ∧
    (jsFalsy m.cost_per_visit = true → costPerVisitValue m = 150) ∧
    (jsFalsy m.mental_health_access = true → mentalHealthValue m = 0) := by
  refine ⟨?_, ?_, ?_, ?_, ?_, ?_⟩ <;> intro h
  · rw [patientsWaitingValue, jsOr_of_falsy _ _ h]
  · rw [avgWaitValue, jsOr_of_falsy _ _ h]
    norm_num [mathRound]
  · rw [satisfactionValue, jsOr_of_falsy _ _ h]
    norm_num [mathRound]
  · rw [utilizationValue, jsOr_of_falsy _ _ h]
    norm_num [mathRound]
  · rw [costPerVisitValue, jsOr_of_falsy _ _ h]
    norm_num [mathRound]
  · rw [mentalHealthValue, jsOr_of_falsy _ _ h]
    norm_num [mathRound]

/-- Witness for C10 at concrete snapshots: one omitting only the
cost_per_visit field, which renders its 150 dollar default while every other
field is present, and one carrying a zero patients_waiting, which renders 0. -/
theorem metricsDisplay_defaults_witness :
    costPerVisitValue ⟨some 5, some 20, some 80, some (3 / 4), none, some 40⟩
      = 150 ∧
    patientsWaitingValue
      ⟨some 0, some 20, some 80, some (3 / 4), some 120, some 40⟩ = 0 :=
  ⟨(metricsDisplay_defaults
      ⟨some 5, some 20, some 80, some (3 / 4), none, some 40⟩).2.2.2.2.1 rfl,
   (metricsDisplay_defaults
      ⟨some 0, some 20, some 80, some (3 / 4), some 120, some 40⟩).1 (by decide)⟩

/-- The four lucide icons InsightPanel can attach to an insight. -/
inductive InsightIcon where
  | alertTriangle
  | trendingUp
  | lightbulb
  | alertCircle
deriving DecidableEq

/-- InsightPanel's `getInsightIcon(type)` switch: crisis tags get the warning
triangle, success and social-network tags the trending arrow, optimization and
temporal tags the light bulb; every other tag falls through to the default
`AlertCircle`. -/
def getInsightIcon (t : String) : InsightIcon :=
  if t = "wait_time_crisis" ∨ t = "capacity_crisis" then .alertTriangle
  else if t = "innovation_success" ∨ t = "social_network_pattern" then .trendingUp
  else if t = "resource_optimization" ∨ t = "temporal_pattern" then .lightbulb
  else .alertCircle

/-- The five detector type tags named by the spec's Insight Engine catalog
(§4.6), written in the snake_case tag form used on the wire by the code and
the API documentation. -/
def specDetectorCatalog : List String :=
  ["wait_time_crisis", "bottleneck_detection", "innovation_success",
   "resource_optimization", "social_network_pattern"]

/-- The type tags `getInsightIcon` actually recognizes, in switch order. -/
def recognizedInsightTags : List String :=
  ["wait_time_crisis", "capacity_crisis", "innovation_success",
   "social_network_pattern", "resource_optimization", "temporal_pattern"]

/-- C3 counterexample: `bottleneck-detection` is in the spec's five-detector
catalog, yet the insight presentation does not recognize it: it maps it to the
default `AlertCircle` icon, the same category as an arbitrary unknown tag. -/
theorem bottleneck_tag_unrecognized :
    "bottleneck_detection" ∈ specDetectorCatalog ∧
    getInsightIcon "bottleneck_detection" = .alertCircle ∧
    getInsightIcon "bottleneck_detected" = .alertCircle ∧
    getInsightIcon "no_such_tag" = .alertCircle := by
  decide

/-- C3 amended: the insight presentation recognizes six type tags —
wait_time_crisis, capacity_crisis, innovation_success, social_network_pattern,
resource_optimization, temporal_pattern — mapping each to a non-default icon;
of the spec's five catalog tags, all except bottleneck-detection are
recognized, while bottleneck-detection falls to the default icon. -/
theorem insight_catalog_recognition :
    (∀ t ∈ recognizedInsightTags, getInsightIcon t ≠ .alertCircle) ∧
    (∀ t ∈ specDetectorCatalog, t ≠ "bottleneck_detection" →
      getInsightIcon t ≠ .alertCircle) ∧
    getInsightIcon "bottleneck_detection" = .alertCircle := by
  decide

/-- Witness for C3's amended theorem at concrete tags: the crisis tag is
recognized and the bottleneck tag is not. -/
theorem insight_catalog_recognition_witness :
    getInsightIcon "wait_time_crisis" ≠ .alertCircle ∧
    getInsightIcon "social_network_pattern" ≠ .alertCircle :=
  ⟨insight_catalog_recognition.1 "wait_time_crisis" (by decide),
   insight_catalog_recognition.2.1 "social_network_pattern" (by decide) (by decide)⟩

/-- An insight record as delivered on the stream and rendered by InsightPanel. -/
structure Insight where
  id : String := ""
  type : String := ""
  severity : String := ""
  title : String := ""
  description : String := ""
  recommendation : String := ""
  confidence : ℚ := 0
deriving DecidableEq

/-- A per-agent summary as delivered in `simulation_update` messages. -/
structure Agent where
  id : String := ""
  type : String := ""
  state : String := ""
  location : String := ""
deriving DecidableEq

/-- The payload handed to `onQueryResult` (the raw query response `data` in
NaturalLanguageQuery's `processQuery`): the answer text plus optional metrics
and insights. -/
structure QueryResultData where
  query : String := ""
  response : String := ""
  metrics : Option Metrics := none
  insights : List Insight := []
deriving DecidableEq

/-- The AISimulation component's state hooks. -/
structure ComponentState where
  simulationId : Option String := none
  isRunning : Bool := false
  isConnected : Bool := false
  currentState : Metrics := {}
  insights : List Insight := []
  agents : List Agent := []
  queryResponse : Option QueryResultData := none
deriving DecidableEq

/-- WebSocket messages as the consumer sees them: the four documented types
(src/docs/api/backend-api.md) plus an open `unknown` case for any other
`type` string, which the code's `default` branch only logs. -/
inductive WSMessage where
  | initialState (currentState : Metrics)
  | simulationUpdate (state : Metrics) (agents : List Agent)
      (newInsights : List Insight)
  | simulationCompleted
  | simulationError (error : String)
  | unknown (msgType : String)
deriving DecidableEq

/-- AISimulation's `handleWebSocketMessage`: `initial_state` installs the
current state; `simulation_update` installs state and agents and, when new
insights arrived, prepends them keeping the first 20; `simulation_completed`
and `simulation_error` clear the running flag; anything else is only logged. -/
def handleWebSocketMessage (msg : WSMessage) (s : ComponentState) : ComponentState :=
  match msg with
  | .initialState cs => { s with currentState := cs }
  | .simulationUpdate st ags ni =>
      let s1 := { s with currentState := st, agents := ags }
      if ni.length > 0 then { s1 with insights := (ni ++ s1.insights).take 20 }
      else s1
  | .simulationCompleted => { s with isRunning := false }
  | .simulationError _ => { s with isRunning := false }
  | .unknown _ => s

/-- The JavaScript object spread in `setCurrentState(prev => ...prev,
...result.metrics)`: a field present in the update overrides, an absent field
keeps the previous value. -/
def mergeMetrics (prev upd : Metrics) : Metrics where
  patients_waiting := upd.patients_waiting.orElse fun _ => prev.patients_waiting
  average_wait_time := upd.average_wait_time.orElse fun _ => prev.average_wait_time
  average_satisfaction := upd.average_satisfaction.orElse fun _ => prev.average_satisfaction
  provider_utilization := upd.provider_utilization.orElse fun _ => prev.provider_utilization
  cost_per_visit := upd.cost_per_visit.orElse fun _ => prev.cost_per_visit
  mental_health_access := upd.mental_health_access.orElse fun _ => prev.mental_health_access

/-- AISimulation's `handleQueryResult`: store the query response, prepend any
insights it carried keeping the first 20, and merge any metrics it carried
into the current state. -/
def handleQueryResult (result : QueryResultData) (s : ComponentState) : ComponentState :=
  let s1 := { s with queryResponse := some result }
  let s2 :=
    if result.insights.length > 0 then
      { s1 with insights := (result.insights ++ s1.insights).take 20 }
    else s1
  match result.metrics with
  | some m => { s2 with currentState := mergeMetrics s2.currentState m }
  | none => s2

/-- A message opening the stream with the full current state. -/
def isInitialMessage (m : WSMessage) : Bool :=
  match m with
  | .initialState _ => true
  | _ => false

/-- A per-tick update message: state delta, agent summaries, new insights. -/
def isUpdateMessage (m : WSMessage) : Bool :=
  match m with
  | .simulationUpdate _ _ _ => true
  | _ => false

/-- A terminal stream message: completion or error. -/
def isTerminalMessage (m : WSMessage) : Bool :=
  match m with
  | .simulationCompleted => true
  | .simulationError _ => true
  | _ => false

/-- Modelled from the spec: the Streaming Broadcaster is backend code not
under src/; per §4.7/§6 and the message-type catalog of
src/docs/api/backend-api.md, a run's stream delivers an initial full-state
message, then one update per tick, then exactly one terminal message
(`simulation_completed`, or `simulation_error` when the run failed). -/
def broadcastStream (init : Metrics)
    (ticks : List (Metrics × List Agent × List Insight))
    (failure : Option String) : List WSMessage :=
  WSMessage.initialState init ::
    (ticks.map (fun t => WSMessage.simulationUpdate t.1 t.2.1 t.2.2) ++
     [match failure with
      | none => WSMessage.simulationCompleted
      | some e => WSMessage.simulationError e])

/-- C2: every message delivered on a run's real-time stream is an initial
full-state message, a per-tick update message, or a terminal message; and
processing a terminal message (completion or error) leaves the run marked as
not running. -/
theorem stream_protocol_and_termination (init : Metrics)
    (ticks : List (Metrics × List Agent × List Insight)) (failure : Option String) :
    (∀ m ∈ broadcastStream init ticks failure,
      isInitialMessage m = true ∨ isUpdateMessage m = true ∨
        isTerminalMessage m = true) ∧
    (∀ (s : ComponentState) (m : WSMessage), isTerminalMessage m = true →
      (handleWebSocketMessage m s).isRunning = false) := by
  constructor
  · intro m hm
    unfold broadcastStream at hm
    rcases List.mem_cons.mp hm with h | h
    · subst h; left; rfl
    rcases List.mem_append.mp h with h | h
    · rcases List.mem_map.mp h with ⟨t, _, rfl⟩
      right; left; rfl
    · rcases failure with _ | e <;> simp only [List.mem_singleton] at h <;>
        subst h <;> right <;> right <;> rfl
  · intro s m hm
    cases m <;> simp_all [isTerminalMessage, handleWebSocketMessage]

/-- Witness for C2 at a concrete stream and a concrete terminal message. -/
theorem stream_protocol_and_termination_witness :
    (isInitialMessage (WSMessage.initialState {}) = true ∨
     isUpdateMessage (WSMessage.initialState {}) = true ∨
     isTerminalMessage (WSMessage.initialState {}) = true) ∧
    (handleWebSocketMessage .simulationCompleted
        { isRunning := true, isConnected := true }).isRunning = false :=
  ⟨(stream_protocol_and_termination {} [] none).1 (WSMessage.initialState {})
      (List.mem_cons_self _ _),
   (stream_protocol_and_termination {} [] none).2
      { isRunning := true, isConnected := true } .simulationCompleted rfl⟩

/-- C7: after each operation that adds insights — a per-tick update carrying
new insights, or a query result carrying insights — the retained insight list
is exactly the new insights prepended to the previous list and truncated to
20 entries: the newest insights come first and the length never exceeds the
fixed bound of 20. -/
theorem insights_bounded_newest_first (s : ComponentState) (st : Metrics)
    (ags : List Agent) (ni : List Insight) (r : QueryResultData)
    (hni : ni ≠ []) (hri : r.insights ≠ []) :
    ((handleWebSocketMessage (.simulationUpdate st ags ni) s).insights
        = (ni ++ s.insights).take 20 ∧
     (handleWebSocketMessage (.simulationUpdate st ags ni) s).insights.length ≤ 20) ∧
    ((handleQueryResult r s).insights = (r.insights ++ s.insights).take 20 ∧
     (handleQueryResult r s).insights.length ≤ 20) := by
  have hni' : 0 < ni.length := List.length_pos.mpr hni
  have hri' : 0 < r.insights.length := List.length_pos.mpr hri
  have h1 : (handleWebSocketMessage (.simulationUpdate st ags ni) s).insights
      = (ni ++ s.insights).take 20 := by
    simp [handleWebSocketMessage, hni']
  have h2 : (handleQueryResult r s).insights
      = (r.insights ++ s.insights).take 20 := by
    unfold handleQueryResult
    cases hm : r.metrics <;> simp [hri']
  refine ⟨⟨h1, ?_⟩, h2, ?_⟩
  · rw [h1, List.length_take]
    exact min_le_left _ _
  · rw [h2, List.length_take]
    exact min_le_left _ _

/-- Witness for C7: one fresh insight arriving over the stream and one
arriving with a query result, on top of one retained insight. -/
theorem insights_bounded_newest_first_witness :
    ((handleWebSocketMessage
        (.simulationUpdate {} [] [{ id := "n1" }])
        { insights := [{ id := "o1" }] }).insights
        = (([{ id := "n1" }] : List Insight) ++ ([{ id := "o1" }] : List Insight)).take 20 ∧
     (handleWebSocketMessage
        (.simulationUpdate {} [] [{ id := "n1" }])
        { insights := [{ id := "o1" }] }).insights.length ≤ 20) ∧
    ((handleQueryResult { insights := [{ id := "q1" }] }
        { insights := [{ id := "o1" }] }).insights
        = (([{ id := "q1" }] : List Insight) ++ ([{ id := "o1" }] : List Insight)).take 20 ∧
     (handleQueryResult { insights := [{ id := "q1" }] }
        { insights := [{ id := "o1" }] }).insights.length ≤ 20) :=
  insights_bounded_newest_first { insights := [{ id := "o1" }] } {} []
    [{ id := "n1" }] { insights := [{ id := "q1" }] }
    (by decide) (by decide)

/-- C8: processing a stream message whose type is none of the four known
protocol types is a no-op: the consumer state — current state, agent list,
insight list, running flag — is left unchanged. -/
theorem unknown_message_is_noop (t : String) (s : ComponentState) :
    handleWebSocketMessage (.unknown t) s = s := rfl

/-- JavaScript `String.prototype.trim`: strip leading and trailing
whitespace (executable model; characters beyond ASCII whitespace behave
identically for the inputs at hand). -/
def trimChars (cs : List Char) : List Char :=
  ((cs.dropWhile Char.isWhitespace).reverse.dropWhile Char.isWhitespace).reverse

/-- JavaScript `s.trim()` on a string. -/
def jsTrim (s : String) : String := String.mk (trimChars s.data)

theorem string_append_ne_empty (a b : String) (ha : a.data ≠ []) :
    a ++ b ≠ "" := by
  intro h
  have h2 : (a ++ b).data = ([] : List Char) := by rw [h]
  have h3 : a.data ++ b.data = [] := h2
  exact ha (List.append_eq_nil.mp h3).1

/-- The HTTP request `processQuery` issues against the query endpoint. -/
structure QueryRequest where
  url : String
  body : String
deriving DecidableEq

/-- The query endpoint URL built in NaturalLanguageQuery's `processQuery`. -/
def queryUrl (simulationId : String) : String :=
  "http://localhost:8000/api/v2/simulations/" ++ simulationId ++ "/query"

/-- Outcome of the fetch inside `processQuery`: a parsed response body, a
non-ok HTTP status (whose statusText feeds the thrown error), or a network
failure (whose message feeds the catch). -/
inductive FetchResult where
  | ok (data : QueryResultData)
  | httpError (statusText : String)
  | networkError (message : String)
deriving DecidableEq

/-- The NaturalLanguageQuery component's state hooks relevant to a query. -/
structure QueryState where
  query : String := ""
  isProcessing : Bool := false
  response : String := ""
  error : String := ""
  conversationHistory : List QueryResultData := []
deriving DecidableEq

/-- NaturalLanguageQuery's `processQuery`: guard on a non-blank query and a
known simulation id; clear the error and set the processing flag; send the
query keyed only by the simulation id; on success record the conversation
entry, store the response and clear the input; on any failure store the error
message; finally clear the processing flag.  Returns the new state together
with the request that was issued, if any. -/
def processQuery (simulationId : Option String) (env : FetchResult)
    (s : QueryState) : QueryState × Option QueryRequest :=
  match simulationId with
  | none => (s, none)
  | some sid =>
    if jsTrim s.query = "" then (s, none)
    else
      let s0 := { s with isProcessing := true, error := "" }
      let req : QueryRequest := ⟨queryUrl sid, s0.query⟩
      let s1 :=
        match env with
        | .ok data =>
            let entry := { data with query := s0.query }
            { s0 with conversationHistory := entry :: s0.conversationHistory
                      response := data.response
                      query := "" }
        | .httpError statusText =>
            { s0 with error := "Query failed: " ++ statusText }
        | .networkError msg => { s0 with error := msg }
      ({ s1 with isProcessing := false }, some req)

/-- The error box of NaturalLanguageQuery renders exactly when the `error`
state is truthy, i.e. a non-empty string. -/
def errorVisible (s : QueryState) : Bool := s.error != ""

/-- The props AISimulation passes to the query interface: the component is
rendered, with the run identifier, exactly when `simulationId` is set — no
WebSocket or running state is consulted. -/
def nlqProps (s : ComponentState) : Option String :=
  match s.simulationId with
  | some sid => some sid
  | none => none

/-- C4 counterexample: a failing query call does not degrade silently — at a
concrete failing input the error state is set to the failure message, the
user-visible error box renders, and no fallback response text is produced. -/
theorem query_failure_surfaced_cex :
    errorVisible (processQuery (some "sim_abc123")
        (.httpError "Internal Server Error")
        { query := "What is the current wait time?" }).1 = true ∧
    (processQuery (some "sim_abc123") (.httpError "Internal Server Error")
        { query := "What is the current wait time?" }).1.error
      = "Query failed: Internal Server Error" ∧
    (processQuery (some "sim_abc123") (.httpError "Internal Server Error")
        { query := "What is the current wait time?" }).1.response = "" := by
  decide

/-- C4 amended: a failure of the query call (non-ok HTTP status or network
error) sets the component's error state to the failure message, which is
rendered in the user-visible error display; the previous response text is
left unchanged and no local fallback answer is produced. -/
theorem query_failure_error_display (sid statusText msg : String)
    (s : QueryState) (hq : jsTrim s.query ≠ "") (hm : msg ≠ "") :
    ((processQuery (some sid) (.httpError statusText) s).1.error
        = "Query failed: " ++ statusText ∧
     errorVisible (processQuery (some sid) (.httpError statusText) s).1 = true ∧
     (processQuery (some sid) (.httpError statusText) s).1.response
        = s.response) ∧
    ((processQuery (some sid) (.networkError msg) s).1.error = msg ∧
     errorVisible (processQuery (some sid) (.networkError msg) s).1 = true ∧
     (processQuery (some sid) (.networkError msg) s).1.response
        = s.response) := by
  have he1 : (processQuery (some sid) (.httpError statusText) s).1.error
      = "Query failed: " ++ statusText := by
    simp [processQuery, if_neg hq]
  have he2 : (processQuery (some sid) (.networkError msg) s).1.error = msg := by
    simp [processQuery, if_neg hq]
  have hr1 : (processQuery (some sid) (.httpError statusText) s).1.response
      = s.response := by
    simp [processQuery, if_neg hq]
  have hr2 : (processQuery (some sid) (.networkError msg) s).1.response
      = s.response := by
    simp [processQuery, if_neg hq]
  refine ⟨⟨he1, ?_, hr1⟩, he2, ?_, hr2⟩
  · unfold errorVisible
    rw [he1]
    exact bne_iff_ne.mpr
      (string_append_ne_empty "Query failed: " statusText (by decide))
  · unfold errorVisible
    rw [he2]
    exact bne_iff_ne.mpr hm

/-- Witness for C4's amended theorem at a concrete failing query. -/
theorem query_failure_error_display_witness :
    ((processQuery (some "sim_abc123") (.httpError "Not Found")
        { query := "How many patients are in triage?" }).1.error
        = "Query failed: " ++ "Not Found" ∧
     errorVisible (processQuery (some "sim_abc123") (.httpError "Not Found")
        { query := "How many patients are in triage?" }).1 = true ∧
     (processQuery (some "sim_abc123") (.httpError "Not Found")
        { query := "How many patients are in triage?" }).1.response
        = QueryState.response { query := "How many patients are in triage?" }) ∧
    ((processQuery (some "sim_abc123") (.networkError "Failed to fetch")
        { query := "How many patients are in triage?" }).1.error
        = "Failed to fetch" ∧
     errorVisible (processQuery (some "sim_abc123") (.networkError "Failed to fetch")
        { query := "How many patients are in triage?" }).1 = true ∧
     (processQuery (some "sim_abc123") (.networkError "Failed to fetch")
        { query := "How many patients are in triage?" }).1.response
        = QueryState.response { query := "How many patients are in triage?" }) :=
  query_failure_error_display "sim_abc123" "Not Found" "Failed to fetch"
    { query := "How many patients are in triage?" } (by decide) (by decide)

/-- C6: the query path depends only on the run identifier and the text: a
non-blank query with a known simulation id always issues the request built
from just those two, whatever the fetch environment; and the query interface
props are determined by the simulation id alone, identical across any
WebSocket connection and running states. -/
theorem query_independent_of_stream (sid : String) (env : FetchResult)
    (s : QueryState) (c1 c2 r1 r2 : Bool) (hq : jsTrim s.query ≠ "") :
    (processQuery (some sid) env s).2 = some ⟨queryUrl sid, s.query⟩ ∧
    nlqProps { simulationId := some sid, isConnected := c1, isRunning := r1 }
      = nlqProps { simulationId := some sid, isConnected := c2, isRunning := r2 } := by
  constructor
  · unfold processQuery
    cases env <;> simp [hq]
  · rfl

/-- Witness for C6: a concrete query is issued both with the stream connected
and with it disconnected, and the interface props agree. -/
theorem query_independent_of_stream_witness :
    (processQuery (some "sim_abc123") (.ok {})
        { query := "What insights do you have?" }).2
      = some ⟨queryUrl "sim_abc123", "What insights do you have?"⟩ ∧
    nlqProps { simulationId := some "sim_abc123", isConnected := true,
               isRunning := true }
      = nlqProps { simulationId := some "sim_abc123", isConnected := false,
                   isRunning := false } :=
  query_independent_of_stream "sim_abc123" (.ok {})
    { query := "What insights do you have?" } true false true false (by decide)

/-- The free-text query response record as documented by the repository's API
reference (src/docs/api/backend-api.md, Natural Language Query): the echoed
query, the classified intent, a single response text, a confidence score, and
an optional scenario object.  The backend implementation itself is not under
src/. -/
def documentedQueryResponseFields : List String :=
  ["query", "intent", "response", "confidence", "scenario"]

/-- The query response record exactly as the spec's words state it (§4.8),
for comparison with the documented record. -/
def specClaimedQueryResponseFields : List String :=
  ["intent", "confidence", "concise_response", "detailed_response",
   "scenario_parameters"]

/-- The response fields the frontend consumer actually reads in
`processQuery` (VALAvatar.jsx): `data.response`, `data.metrics`,
`data.insights`. -/
def consumerReadFields : List String := ["response", "metrics", "insights"]

/-- C5 counterexample: the documented query response carries a single
`response` field and has neither of the spec's `concise_response` and
`detailed_response` fields, so the claimed record shape does not match the
endpoint. -/
theorem query_response_shape_cex :
    ("concise_response" ∈ specClaimedQueryResponseFields ∧
     "concise_response" ∉ documentedQueryResponseFields) ∧
    ("detailed_response" ∈ specClaimedQueryResponseFields ∧
     "detailed_response" ∉ documentedQueryResponseFields) ∧
    "response" ∈ documentedQueryResponseFields := by
  decide

/-- C5 amended: every response of the free-text query endpoint is the
structured record of the API reference — query, intent, a single response
text, confidence, and an optional scenario — carrying intent and confidence
as claimed but one response field rather than separate concise and detailed
texts; the consumer reads the response field (plus optional metrics and
insights). -/
theorem query_response_documented_shape :
    ("intent" ∈ documentedQueryResponseFields ∧
     "confidence" ∈ documentedQueryResponseFields ∧
     "response" ∈ documentedQueryResponseFields ∧
     "scenario" ∈ documentedQueryResponseFields) ∧
    ("concise_response" ∉ documentedQueryResponseFields ∧
     "detailed_response" ∉ documentedQueryResponseFields) ∧
    ("response" ∈ consumerReadFields ∧
     "response" ∉ specClaimedQueryResponseFields) := by
  decide

/-- Modelled from the spec: the Patient agent state machine lives in the
backend Python (not under src/); states are taken from §4.2 and
src/docs/simulation/agent-framework.md. -/
inductive PatientState where
  | arrival
  | checkIn
  | waiting
  | triage
  | treatment
  | discharged
  | leftWithoutTreatment
deriving DecidableEq

/-- Modelled from the spec: DISCHARGED and LEFT_WITHOUT_TREATMENT are the two
terminal patient states; the other five are non-terminal. -/
def PatientState.isTerminal : PatientState → Bool
  | .discharged => true
  | .leftWithoutTreatment => true
  | _ => false

/-- Modelled from the spec: the allowed Patient transitions — the linear
pathway ARRIVAL → CHECK_IN → WAITING → TRIAGE → TREATMENT → DISCHARGED plus
the extra edge WAITING → LEFT_WITHOUT_TREATMENT (§4.2). -/
def canStep : PatientState → PatientState → Bool
  | .arrival, .checkIn => true
  | .checkIn, .waiting => true
  | .waiting, .triage => true
  | .waiting, .leftWithoutTreatment => true
  | .triage, .treatment => true
  | .treatment, .discharged => true
  | _, _ => false

/-- Modelled from the spec: one Run's agent bookkeeping — the active agent
set, the terminal-state history agents are moved to on removal (§3
Lifecycle), and the count of agents ever created. -/
structure RunState where
  active : List PatientState
  history : List PatientState
  created : ℕ
deriving DecidableEq

/-- Modelled from the spec: the per-tick events that touch the agent set — a
new arrival, one agent stepping along an allowed edge, and the removal of an
agent that reached a terminal state into history (§4.1 (a), (b), (d)). -/
inductive RunOp where
  | arrive
  | step (i : ℕ) (target : PatientState)
  | retire (i : ℕ)
deriving DecidableEq

/-- Modelled from the spec: applying one agent-set event to a Run.  Arrivals
create an agent in ARRIVAL and bump the created counter; a step moves an
agent along an allowed edge only; a retire moves an agent that is in a
terminal state from the active set into history. -/
def applyOp (s : RunState) : RunOp → RunState
  | .arrive =>
      { s with active := PatientState.arrival :: s.active
               created := s.created + 1 }
  | .step i target =>
      match s.active[i]? with
      | some cur =>
          if canStep cur target then { s with active := s.active.set i target }
          else s
      | none => s
  | .retire i =>
      match s.active[i]? with
      | some cur =>
          if cur.isTerminal then
            { s with active := s.active.eraseIdx i
                     history := cur :: s.history }
          else s
      | none => s

/-- A Run begins with no agents and a zero created counter. -/
def initialRun : RunState := ⟨[], [], 0⟩

/-- The Run state after a sequence of agent-set events. -/
def runOps (ops : List RunOp) : RunState := ops.foldl applyOp initialRun

/-- All agents of a Run: the active set together with the retained history. -/
def agentsOf (s : RunState) : List PatientState := s.active ++ s.history

/-- The number of the Run's agents in a non-terminal state. -/
def nonTerminalCount (s : RunState) : ℕ :=
  ((agentsOf s).filter (fun p => !p.isTerminal)).length

/-- The number of the Run's agents in a terminal state. -/
def terminalCount (s : RunState) : ℕ :=
  ((agentsOf s).filter (fun p => p.isTerminal)).length

theorem filter_length_partition (l : List PatientState) :
    (l.filter (fun p => !p.isTerminal)).length
      + (l.filter (fun p => p.isTerminal)).length = l.length := by
  induction l with
  | nil => rfl
  | cons a t ih =>
    cases h : a.isTerminal <;> simp [List.filter, h] <;> omega

theorem applyOp_size (s : RunState) (op : RunOp)
    (h : s.active.length + s.history.length = s.created) :
    (applyOp s op).active.length + (applyOp s op).history.length
      = (applyOp s op).created := by
  cases op with
  | arrive => simp [applyOp]; omega
  | step i target =>
    cases hg : s.active[i]? with
    | none => simpa [applyOp, hg] using h
    | some cur =>
      by_cases hc : canStep cur target = true
      · simpa [applyOp, hg, hc] using h
      · simp only [applyOp, hg]
        rw [if_neg hc]
        exact h
  | retire i =>
    cases hg : s.active[i]? with
    | none => simpa [applyOp, hg] using h
    | some cur =>
      have hi : i < s.active.length := by
        rcases List.getElem?_eq_some.mp hg with ⟨h1, _⟩
        exact h1
      by_cases hc : cur.isTerminal = true
      · simp only [applyOp, hg]
        rw [if_pos hc]
        simp only [List.length_eraseIdx, List.length_cons]
        rw [if_pos hi]
        omega
      · simp only [applyOp, hg]
        rw [if_neg hc]
        exact h

theorem runOps_size (ops : List RunOp) :
    (runOps ops).active.length + (runOps ops).history.length
      = (runOps ops).created := by
  suffices h : ∀ s : RunState,
      s.active.length + s.history.length = s.created →
      (ops.foldl applyOp s).active.length + (ops.foldl applyOp s).history.length
        = (ops.foldl applyOp s).created from h initialRun rfl
  induction ops with
  | nil => intro s hs; exact hs
  | cons op rest ih =>
    intro s hs
    exact ih (applyOp s op) (applyOp_size s op hs)

/-- C1: conservation law — after any sequence of arrivals, agent steps and
terminal-state removals, the number of the Run's agents in a non-terminal
state (ARRIVAL, CHECK_IN, WAITING, TRIAGE, TREATMENT) plus the number in a
terminal state (DISCHARGED, LEFT_WITHOUT_TREATMENT) equals the total number
of agents ever created for that Run. -/
theorem conservation_law (ops : List RunOp) :
    nonTerminalCount (runOps ops) + terminalCount (runOps ops)
      = (runOps ops).created := by
  unfold nonTerminalCount terminalCount
  rw [filter_length_partition]
  unfold agentsOf
  rw [List.length_append]
  exact runOps_size ops

end Proactiva
